import Mathlib

/-!
Verification of the generate-validate-repair core of the vocoweb backend.

The definitions below are a shallow embedding of
`backend/app/api/routes/generate_code.py` and `backend/app/ai/validator.py`.
Python strings are modelled as Lean `String` (a wrapper around `List Char`);
the Python string primitives used by the source (`in`, `find`, `startswith`,
`endswith`, slicing, `lower`, `strip`, `replace`, `split()[0]`) are given
executable list-based definitions.  External effects (the OpenAI chat
completions, `os.getenv`, prompt files on disk) are modelled as explicit
environment records passed to the embedded functions; an `Except` value
stands for a call that may raise.  Lowercasing is ASCII (`Char.toLower`),
matching Python on all markup the code manipulates.
-/

set_option maxRecDepth 10000

/-! ## String primitives (list-char based, mirroring the Python operations) -/

/-- Python `s.startswith(pat)` on char lists: first argument is the pattern. -/
def listStartsWith : List Char → List Char → Bool
  | [], _ => true
  | _ :: _, [] => false
  | p :: ps, c :: cs => p == c && listStartsWith ps cs

/-- Python `pat in s` on char lists: first argument is the pattern. -/
def listContainsSub (pat : List Char) : List Char → Bool
  | [] => listStartsWith pat []
  | c :: rest => listStartsWith pat (c :: rest) || listContainsSub pat rest

/-- Python `s.find(pat)` on char lists (as `Option` instead of `-1`). -/
def findSubIdx (pat : List Char) : List Char → Option Nat
  | [] => if listStartsWith pat [] then some 0 else none
  | c :: rest =>
      if listStartsWith pat (c :: rest) then some 0
      else (findSubIdx pat rest).map Nat.succ

/-- ASCII lowercasing of a char list (Python `s.lower()`). -/
def lowerList (l : List Char) : List Char := l.map Char.toLower

/-- Python `s.lower()`. -/
def lowerStr (s : String) : String := ⟨lowerList s.data⟩

/-- Python `pat in s` (substring containment). -/
def strContains (s pat : String) : Bool := listContainsSub pat.data s.data

/-- Python `s.startswith(pat)`. -/
def strStartsWith (s pat : String) : Bool := listStartsWith pat.data s.data

/-- Python `s.endswith(pat)`. -/
def strEndsWith (s pat : String) : Bool :=
  listStartsWith pat.data.reverse s.data.reverse

/-- Python `s[n:]`. -/
def strDrop (s : String) (n : Nat) : String := ⟨s.data.drop n⟩

/-- Python `s[:-n]` (for `n ≤ len s`). -/
def strDropRight (s : String) (n : Nat) : String :=
  ⟨(s.data.reverse.drop n).reverse⟩

/-- Python `s[:n]`. -/
def strTake (s : String) (n : Nat) : String := ⟨s.data.take n⟩

/-- Python `s.strip()` (whitespace from both ends). -/
def strTrim (s : String) : String :=
  ⟨((s.data.dropWhile Char.isWhitespace).reverse.dropWhile Char.isWhitespace).reverse⟩

/-- Python `s.replace(" ", "%20")` on a char list. -/
def encodeSpacesList : List Char → List Char
  | [] => []
  | c :: rest =>
      if c == ' ' then '%' :: '2' :: '0' :: encodeSpacesList rest
      else c :: encodeSpacesList rest

/-- Python `s.replace(" ", "%20")`. -/
def encodeSpaces (s : String) : String := ⟨encodeSpacesList s.data⟩

/-- Python `s.split()[0]`: the first whitespace-separated word. -/
def firstWord (s : String) : String :=
  ⟨(s.data.dropWhile Char.isWhitespace).takeWhile (fun c => !c.isWhitespace)⟩

/-- Python truthiness of an `Optional[str]`: `None` and `""` are falsy. -/
def truthyS : Option String → Bool
  | none => false
  | some s => !(s == "")

/-- Python truthiness of an `Optional[List[str]]`: `None` and `[]` are falsy. -/
def truthyL : Option (List String) → Bool
  | none => false
  | some l => !l.isEmpty

/-- Python `a or b` for an optional string `a` with default `b`. -/
def orDefault : Option String → String → String
  | none, d => d
  | some s, d => if s == "" then d else s

/-! ## Validator embedding (`backend/app/ai/validator.py`) -/

/-- The dict returned by `validate_website` / `_fallback_validation`. -/
structure ValidationResult where
  valid : Bool
  missing_sections : List String
  found_sections : List String
  suggestions : String
deriving DecidableEq, Repr

/-- `MANDATORY_SECTIONS["IN"]` from validator.py. -/
def MANDATORY_SECTIONS_IN : List String :=
  ["sticky navbar", "hero section", "services section", "about/trust section",
   "social proof/testimonials", "location/contact section", "business hours",
   "sticky mobile footer", "footer"]

/-- `MANDATORY_SECTIONS["GLOBAL"]` from validator.py. -/
def MANDATORY_SECTIONS_GLOBAL : List String :=
  ["sticky navbar", "authority hero section", "offer/services section",
   "about/credibility section", "social proof/testimonials",
   "booking/cta section", "footer"]

/-- `MANDATORY_SECTIONS.get(market, MANDATORY_SECTIONS["GLOBAL"])`. -/
def mandatorySections (market : String) : List String :=
  if market == "IN" then MANDATORY_SECTIONS_IN else MANDATORY_SECTIONS_GLOBAL

/-- `keyword_map.get(section, [section.split()[0]])` from `_fallback_validation`. -/
def keyword_map (s : String) : List String :=
  if s == "sticky navbar" then ["nav", "navbar", "header"]
  else if s == "hero section" then ["hero", "min-h-screen", "above-the-fold"]
  else if s == "authority hero section" then ["hero", "min-h-screen"]
  else if s == "services section" then ["services", "what we offer", "our services"]
  else if s == "offer/services section" then ["services", "offer", "how i can help"]
  else if s == "about/trust section" then ["about", "trust", "who we are"]
  else if s == "about/credibility section" then ["about", "credibility", "who i am"]
  else if s == "social proof/testimonials" then ["testimonial", "review", "client", "social proof"]
  else if s == "location/contact section" then ["contact", "location", "address", "map"]
  else if s == "business hours" then ["hours", "timing", "open", "schedule"]
  else if s == "sticky mobile footer" then ["fixed", "bottom", "mobile", "sticky"]
  else if s == "booking/cta section" then ["book", "schedule", "calendly", "apply"]
  else if s == "footer" then ["footer", "</footer>"]
  else [firstWord s]

/-- `any(kw in html_lower for kw in keywords)` for one section. -/
def sectionFound (html_lower : String) (s : String) : Bool :=
  (keyword_map s).any (fun kw => strContains html_lower kw)

/-- `_fallback_validation(html, market)`: keyword-heuristic validation.
The source's single loop appending to `found`/`missing` is rendered as the
two order-preserving filters it computes. -/
def _fallback_validation (html market : String) : ValidationResult :=
  let html_lower := lowerStr html
  let mandatory := mandatorySections market
  let found := mandatory.filter (fun s => sectionFound html_lower s)
  let missing := mandatory.filter (fun s => !(sectionFound html_lower s))
  { valid := missing.isEmpty
    missing_sections := missing
    found_sections := found
    suggestions :=
      if missing.isEmpty then "All sections present"
      else "Missing: " ++ String.intercalate ", " missing }

/-- The `validation_prompt` f-string sent to the judge model, including the
`html[:15000]` truncation. -/
def validationPrompt (html market : String) : String :=
  let mandatory := mandatorySections market
  let mandatory_list := String.intercalate "\n" (mandatory.map (fun s => "- " ++ s))
  "You are a website validation assistant.\nAnalyze this HTML code and check if ALL of these mandatory sections are present:\n\n"
  ++ mandatory_list
  ++ "\n\nHTML CODE:\n```html\n"
  ++ strTake html 15000
  ++ "  \n```\n\nRespond with ONLY a JSON object (no markdown, no explanation):\n\x7b\n  \"valid\": true/false,\n  \"missing_sections\": [\"section1\", \"section2\"],\n  \"found_sections\": [\"section1\", \"section2\", ...],\n  \"suggestions\": \"Brief suggestion for what\x27s missing or \x27All sections present\x27\"\n\x7d\n"

/-- The judge model's reply once the fence-cleanup and `json.loads` of
`validate_website` have succeeded: a JSON object whose four fields may each
be absent (the source reads them with `result.get(key, default)`). -/
structure JudgeJson where
  jvalid : Option Bool
  jmissing : Option (List String)
  jfound : Option (List String)
  jsuggestions : Option String
deriving DecidableEq, Repr

/-- Environment of `validate_website`: `os.getenv("OPENAI_API_KEY")`, and the
judge call as a function of the prompt.  `Except.error ()` stands for any
exception inside the `try` block — network failure, timeout, or a reply that
the fence-cleanup + `json.loads` cannot parse into an object. -/
structure ValEnv where
  apiKey : Option String
  judge : String → Except Unit JudgeJson

/-- The dict built from a successfully parsed judge reply
(`result.get("valid", False)` etc.). -/
def judgeToResult (j : JudgeJson) : ValidationResult :=
  { valid := j.jvalid.getD false
    missing_sections := j.jmissing.getD []
    found_sections := j.jfound.getD []
    suggestions := j.jsuggestions.getD "" }

/-- `validate_website(html, market)`: AI-judge validation with keyword
fallback on missing key or any judge-path exception. -/
def validate_website (env : ValEnv) (html market : String) : ValidationResult :=
  if truthyS env.apiKey then
    match env.judge (validationPrompt html market) with
    | Except.error _ => _fallback_validation html market
    | Except.ok j => judgeToResult j
  else _fallback_validation html market

/-! ## Repair prompt (`generate_repair_prompt`, `_get_section_requirements`) -/

/-- One iteration of the `elif` chain in `_get_section_requirements`;
`none` when no branch matches (the source appends nothing). -/
def sectionRequirement (market : String) (s : String) : Option String :=
  let sl := lowerStr s
  if strContains sl "navbar" then
    some "- NAVBAR: Sticky header with logo, navigation links, and CTA button"
  else if strContains sl "hero" then
    if market == "IN" then
      some "- HERO: Large section with headline mentioning location, tagline, and WhatsApp CTA button"
    else
      some "- HERO: Authority-style with outcome headline, problem/solution subheadline, and booking CTA"
  else if strContains sl "service" then
    some "- SERVICES: Grid of 3-6 service cards with icons/titles/descriptions"
  else if strContains sl "about" || strContains sl "credibility" then
    some "- ABOUT: Story section with business/personal background and trust elements"
  else if strContains sl "testimonial" || strContains sl "social proof" then
    some "- TESTIMONIALS: 2-3 customer review cards with star ratings"
  else if strContains sl "contact" || strContains sl "location" then
    some "- CONTACT: Address, phone, map embed placeholder, contact form"
  else if strContains sl "hours" then
    some "- HOURS: Business operating hours in a clear table/list format"
  else if strContains sl "sticky mobile" then
    some "- STICKY MOBILE FOOTER: Fixed bottom bar (mobile only) with Call and WhatsApp buttons"
  else if strContains sl "booking" || strContains sl "cta" then
    some "- BOOKING CTA: Prominent section with booking button linking to calendar"
  else if strContains sl "footer" then
    some "- FOOTER: Contact info, quick links, copyright, \x27Powered by VocoWeb\x27"
  else none

/-- `_get_section_requirements(missing_sections, market)`. -/
def _get_section_requirements (missing_sections : List String) (market : String) : String :=
  String.intercalate "\n" (missing_sections.filterMap (sectionRequirement market))

/-- `generate_repair_prompt(missing_sections, market)`. -/
def generate_repair_prompt (missing_sections : List String) (market : String) : String :=
  let sections_list := String.intercalate "\n" (missing_sections.map (fun s => "- " ++ s))
  "\nCRITICAL: The generated website is MISSING the following required sections:\n\n"
  ++ sections_list
  ++ "\n\nYou MUST add these sections to the HTML. Here are the requirements:\n\n"
  ++ _get_section_requirements missing_sections market
  ++ "\n\nRe-generate the complete HTML with ALL sections included.\n"

/-! ## Asset guarantor (`_ensure_tailwind_cdn`) -/

/-- The `tailwind_cdn` literal of `_ensure_tailwind_cdn`. -/
def tailwind_cdn : String := "<script src=\"https://cdn.tailwindcss.com\"></script>"

/-- The `google_fonts` literal of `_ensure_tailwind_cdn`. -/
def google_fonts : String :=
  "<link rel=\"preconnect\" href=\"https://fonts.googleapis.com\">\n    <link rel=\"preconnect\" href=\"https://fonts.gstatic.com\" crossorigin>\n    <link href=\"https://fonts.googleapis.com/css2?family=Inter:wght@400;500;600;700&family=Playfair+Display:wght@400;500;600;700&display=swap\" rel=\"stylesheet\">"

/-- The `<style>` block shared by the injection and the skeleton (the doubled
braces of the Python f-strings denote literal braces). -/
def fontStyleBlock : String :=
  "<style>\n        body \x7b font-family: \x27Inter\x27, sans-serif; \x7d\n        h1, h2, h3, h4, h5, h6 \x7b font-family: \x27Playfair Display\x27, serif; \x7d\n    </style>"

/-- The `injection` f-string spliced after `<head>`. -/
def headInjection : String :=
  "\n    <!-- Tailwind CSS CDN (Injected) -->\n    " ++ tailwind_cdn
  ++ "\n    <!-- Google Fonts -->\n    " ++ google_fonts
  ++ "\n    " ++ fontStyleBlock ++ "\n"

/-- Prefix of the skeleton document built when the markup has no `<head>`. -/
def skelPre : String :=
  "<!DOCTYPE html>\n<html lang=\"en\">\n<head>\n    <meta charset=\"UTF-8\">\n    <meta name=\"viewport\" content=\"width=device-width, initial-scale=1.0\">\n    <title>Website</title>\n    "
  ++ tailwind_cdn ++ "\n    " ++ google_fonts ++ "\n    " ++ fontStyleBlock
  ++ "\n</head>\n<body>\n"

/-- Suffix of the skeleton document. -/
def skelPost : String := "\n</body>\n</html>"

/-- `_ensure_tailwind_cdn(html)`: return unchanged when the CDN reference is
present; else inject after the (case-insensitively located) `<head>`; else
wrap in a full skeleton.  `html.lower().find("<head>")` is a position in the
original string because ASCII lowercasing is length-preserving. -/
def _ensure_tailwind_cdn (html : String) : String :=
  if strContains html "cdn.tailwindcss.com" then html
  else
    match findSubIdx "<head>".data (lowerList html.data) with
    | some pos => ⟨html.data.take (pos + 6)⟩ ++ headInjection ++ ⟨html.data.drop (pos + 6)⟩
    | none => skelPre ++ html ++ skelPost

/-! ## Generation invoker (`_call_ai_generation`) -/

/-- The code-fence cleanup plus the final `.strip()` in `_call_ai_generation`. -/
def stripFences (s : String) : String :=
  let s1 := if strStartsWith s "```html" then strDrop s 7 else s
  let s2 := if strStartsWith s1 "```" then strDrop s1 3 else s1
  let s3 := if strEndsWith s2 "```" then strDropRight s2 3 else s2
  strTrim s3

/-- Observable calls made by one orchestration run. -/
inductive Event where
  | genCall
  | assetApp
  | valCall
  | repairBuild
deriving DecidableEq, Repr

/-- Occurrences of an event in a trace. -/
def countEvent (e : Event) : List Event → Nat
  | [] => 0
  | x :: rest => (if x = e then 1 else 0) + countEvent e rest

/-- Every generation call is immediately followed by an asset-guarantee
application, except a final failed call which aborts the run. -/
def assetAfterGen : List Event → Bool
  | [] => true
  | [Event.genCall] => true
  | Event.genCall :: Event.assetApp :: rest => assetAfterGen rest
  | Event.genCall :: _ :: _ => false
  | _ :: rest => assetAfterGen rest

/-- The `str(e)` of the `AttributeError` raised when the model reply has
`content = None` (`None.startswith` inside the `try` block). -/
def attrErrMsg : String := "\x27NoneType\x27 object has no attribute \x27startswith\x27"

/-- `_call_ai_generation(system_prompt, user_message)`.  The chat completion
is modelled by `resp`: `Except.error e` is a raised call, `Except.ok none` a
reply with `content = None` (which raises inside the cleanup), and
`Except.ok (some content)` a returned string.  The result is paired with the
trace of observable calls. -/
def _call_ai_generation (resp : Except String (Option String))
    (system_prompt user_message : String) : Except String String × List Event :=
  match resp with
  | Except.error e => (Except.error ("AI generation failed: " ++ e), [Event.genCall])
  | Except.ok none => (Except.error ("AI generation failed: " ++ attrErrMsg), [Event.genCall])
  | Except.ok (some content) =>
      (Except.ok (_ensure_tailwind_cdn (stripFences content)),
       [Event.genCall, Event.assetApp])

/-! ## Prompt composer (the inline user-message build in
`generate_website_code`, plus `load_branding_for_industry`) -/

/-- `theme_colors` dict: the source reads only `primary` and `accent`,
each with `.get` and a default. -/
structure ThemeColors where
  primary : Option String
  accent : Option String
deriving DecidableEq, Repr

/-- `industry_map` from `load_branding_for_industry`, in insertion order. -/
def industry_map : List (String × String) :=
  [("dental", "HEALTHCARE"), ("medical", "HEALTHCARE"), ("clinic", "HEALTHCARE"),
   ("hospital", "HEALTHCARE"), ("pharmacy", "HEALTHCARE"), ("doctor", "HEALTHCARE"),
   ("restaurant", "FOOD & HOSPITALITY"), ("cafe", "FOOD & HOSPITALITY"),
   ("bakery", "FOOD & HOSPITALITY"), ("catering", "FOOD & HOSPITALITY"),
   ("food", "FOOD & HOSPITALITY"),
   ("tech", "TECH & SAAS"), ("software", "TECH & SAAS"), ("saas", "TECH & SAAS"),
   ("digital", "TECH & SAAS"), ("agency", "TECH & SAAS"),
   ("spa", "LUXURY & WELLNESS"), ("salon", "LUXURY & WELLNESS"),
   ("beauty", "LUXURY & WELLNESS"), ("boutique", "LUXURY & WELLNESS"),
   ("wellness", "LUXURY & WELLNESS"),
   ("tuition", "EDUCATION"), ("coaching", "EDUCATION"), ("school", "EDUCATION"),
   ("training", "EDUCATION"), ("education", "EDUCATION"),
   ("legal", "PROFESSIONAL SERVICES"), ("law", "PROFESSIONAL SERVICES"),
   ("accounting", "PROFESSIONAL SERVICES"), ("consulting", "PROFESSIONAL SERVICES"),
   ("shop", "RETAIL & E-COMMERCE"), ("store", "RETAIL & E-COMMERCE"),
   ("retail", "RETAIL & E-COMMERCE"),
   ("gym", "FITNESS & SPORTS"), ("fitness", "FITNESS & SPORTS"),
   ("yoga", "FITNESS & SPORTS"), ("sports", "FITNESS & SPORTS")]

/-- The 80-character section separator of `branding_guidelines.txt`
(a literal run of 80 equals signs in the source). -/
def sectionBar : String := ⟨List.replicate 80 '='⟩

/-- `load_branding_for_industry(business_type)`; the file read by
`load_prompt("branding_guidelines.txt")` is passed in as `guidelines`. -/
def load_branding_for_industry (guidelines : String) (business_type : String) : String :=
  if guidelines == "" then ""
  else
    let business_lower := lowerStr business_type
    let matched_industry :=
      match industry_map.find? (fun kv => strContains business_lower kv.1) with
      | some kv => kv.2
      | none => "DEFAULT"
    let sStart :=
      match findSubIdx (sectionBar ++ "\n" ++ matched_industry).data guidelines.data with
      | some i => some i
      | none => findSubIdx (sectionBar ++ "\nDEFAULT").data guidelines.data
    match sStart with
    | none => ""
    | some i =>
        match findSubIdx sectionBar.data (guidelines.data.drop (i + 80)) with
        | none => ""
        | some j => ⟨(guidelines.data.drop i).take (80 + j)⟩

/-- The image labels of the `USER IMAGES PROVIDED` block. -/
def imageLabels : List String := ["Hero/Shop Front", "Owner/Team", "Product/Service"]

/-- One `- Image {i+1} ({label}): {img}` line. -/
def imageLine (i : Nat) (img : String) : String :=
  "- Image " ++ toString (i + 1) ++ " (" ++ imageLabels.getD i "Additional" ++ "): " ++ img ++ "\n"

/-- The enumerated lines for `user_images[:3]`. -/
def imageLines (imgs : List String) : String :=
  String.join (imgs.enum.map (fun p => imageLine p.1 p.2))

/-- The user-message construction inlined in `generate_website_code`
(lines 177-205 of generate_code.py), with the market-conditional blocks. -/
def composeUserMessage (user_prompt : String) (theme_colors : ThemeColors)
    (market : String) (user_images : Option (List String))
    (whatsapp_number whatsapp_message google_map_link
     brand_voice booking_link email : Option String) : String :=
  let base :=
    "USER REQUEST:\n" ++ user_prompt ++ "\n\n"
    ++ "DESIGN SETTINGS:\n"
    ++ "- Primary Color: " ++ theme_colors.primary.getD "#0d9488" ++ "\n"
    ++ "- Accent Color: " ++ theme_colors.accent.getD "#f97316" ++ "\n"
  let msg :=
    if market == "IN" then
      let m1 :=
        if truthyS whatsapp_number then
          base ++ "- WhatsApp Number: " ++ whatsapp_number.getD "" ++ "\n"
          ++ "- WhatsApp Message (URL encoded): "
          ++ encodeSpaces (orDefault whatsapp_message "Hi, I would like to inquire about your services")
          ++ "\n"
        else base
      let m2 :=
        if truthyL user_images then
          m1 ++ "\nUSER IMAGES PROVIDED:\n" ++ imageLines ((user_images.getD []).take 3)
        else m1
      if truthyS google_map_link then
        m2 ++ "- Google Maps Link: " ++ google_map_link.getD "" ++ "\n"
      else m2
    else
      let m1 :=
        if truthyS brand_voice then base ++ "- Brand Voice: " ++ brand_voice.getD "" ++ "\n"
        else base
      let m2 :=
        if truthyS booking_link then m1 ++ "- Booking Link: " ++ booking_link.getD "" ++ "\n"
        else m1
      if truthyS email then m2 ++ "- Contact Email: " ++ email.getD "" ++ "\n" else m2
  msg ++ "\n\nGenerate the complete HTML website now. Include ALL mandatory sections."

/-! ## Orchestrator (`generate_website_code`) -/

/-- The arguments of `generate_website_code`. -/
structure GenRequest where
  user_prompt : String
  theme_colors : ThemeColors
  market : String
  user_images : Option (List String)
  whatsapp_number : Option String
  whatsapp_message : Option String
  google_map_link : Option String
  brand_voice : Option String
  booking_link : Option String
  email : Option String
  business_type : Option String

/-- External world of one orchestration run: the prompt files on disk
(`load_prompt`), the chat-completion replies of the first and the second
generation call, and the validator environments of the two validations. -/
structure GenEnv where
  prompts : String → String
  resp1 : Except String (Option String)
  resp2 : Except String (Option String)
  val1 : ValEnv
  val2 : ValEnv

/-- The system-prompt construction of `generate_website_code`: market base
prompt plus the optional industry branding section. -/
def systemPromptFor (env : GenEnv) (req : GenRequest) : String :=
  let base :=
    if req.market == "IN" then env.prompts "india_system_prompt.txt"
    else env.prompts "global_system_prompt.txt"
  match req.business_type with
  | none => base
  | some bt =>
      if bt == "" then base
      else
        let branding := load_branding_for_industry (env.prompts "branding_guidelines.txt") bt
        if branding == "" then base
        else base ++ "\n\n=== INDUSTRY-SPECIFIC BRANDING ===\n" ++ branding

/-- `generate_website_code(...)`: generate, validate, and when the result is
invalid with a nonempty missing list, build a repair prompt and regenerate
and revalidate exactly once.  Returns the result (or the propagated
generation failure) together with the trace of observable calls. -/
def generate_website_code (env : GenEnv) (req : GenRequest) :
    Except String (String × ValidationResult) × List Event :=
  let system_prompt := systemPromptFor env req
  let user_message :=
    composeUserMessage req.user_prompt req.theme_colors req.market req.user_images
      req.whatsapp_number req.whatsapp_message req.google_map_link
      req.brand_voice req.booking_link req.email
  match _call_ai_generation env.resp1 system_prompt user_message with
  | (Except.error e, t) => (Except.error e, t)
  | (Except.ok html1, t) =>
      let validation := validate_website env.val1 html1 req.market
      if !validation.valid && !validation.missing_sections.isEmpty then
        let repair_prompt := generate_repair_prompt validation.missing_sections req.market
        let repair_message := user_message ++ "\n\n" ++ repair_prompt
        match _call_ai_generation env.resp2 system_prompt repair_message with
        | (Except.error e, t2) =>
            (Except.error e, t ++ [Event.valCall, Event.repairBuild] ++ t2)
        | (Except.ok html2, t2) =>
            let validation2 := validate_website env.val2 html2 req.market
            (Except.ok (html2, validation2),
             t ++ [Event.valCall, Event.repairBuild] ++ t2 ++ [Event.valCall])
      else (Except.ok (html1, validation), t ++ [Event.valCall])

/-! ## Concrete fixtures used by witnesses and counterexamples -/

/-- A parsed judge reply used to exercise the judge path. -/
def jFix : JudgeJson :=
  { jvalid := some true, jmissing := some [], jfound := some ["footer"],
    jsuggestions := some "All sections present" }

/-- A validator environment whose judge call succeeds with `jFix`. -/
def envJudge : ValEnv := { apiKey := some "k", judge := fun _ => Except.ok jFix }

/-- A parsed judge reply that classifies no section at all. -/
def jBad : JudgeJson :=
  { jvalid := some false, jmissing := some [], jfound := some [], jsuggestions := some "" }

/-- A validator environment whose judge call succeeds with `jBad`. -/
def envBad : ValEnv := { apiKey := some "key", judge := fun _ => Except.ok jBad }

/-- A validator environment with no API key configured. -/
def envNoKey : ValEnv := { apiKey := none, judge := fun _ => Except.error () }

/-- A model reply that the GLOBAL keyword fallback classifies as fully valid
and that already carries the CDN reference. -/
def rawGood : String :=
  "cdn.tailwindcss.com nav hero services about testimonial book footer"

/-- Orchestrator environment whose first generation returns `rawGood` and
whose validations run the keyword fallback. -/
def envC7 : GenEnv :=
  { prompts := fun _ => "", resp1 := Except.ok (some rawGood),
    resp2 := Except.error "unreachable", val1 := envNoKey, val2 := envNoKey }

/-- A GLOBAL-market request with all optional fields absent. -/
def reqC7 : GenRequest :=
  { user_prompt := "a website for my business", theme_colors := ⟨none, none⟩,
    market := "GLOBAL", user_images := none, whatsapp_number := none,
    whatsapp_message := none, google_map_link := none, brand_voice := none,
    booking_link := none, email := none, business_type := none }

/-! ## Helper lemmas about the string primitives -/

theorem strApp_data (a b : String) : (a ++ b).data = a.data ++ b.data := rfl

theorem listStartsWith_append_right (p s t : List Char)
    (h : listStartsWith p s = true) : listStartsWith p (s ++ t) = true := by
  induction p generalizing s with
  | nil => rfl
  | cons x ps ih =>
    cases s with
    | nil => simp [listStartsWith] at h
    | cons c cs =>
      simp only [List.cons_append, listStartsWith, Bool.and_eq_true] at h ⊢
      exact ⟨h.1, ih cs h.2⟩

theorem listStartsWith_of_append (a b s : List Char)
    (h : listStartsWith (a ++ b) s = true) : listStartsWith a s = true := by
  induction a generalizing s with
  | nil => rfl
  | cons x as ih =>
    cases s with
    | nil => simp [listStartsWith] at h
    | cons c cs =>
      simp only [List.cons_append, listStartsWith, Bool.and_eq_true] at h ⊢
      exact ⟨h.1, ih cs h.2⟩

theorem listContainsSub_nil_pat (t : List Char) : listContainsSub [] t = true := by
  cases t with
  | nil => rfl
  | cons c cs => simp [listContainsSub, listStartsWith]

theorem listContainsSub_append_left (pat s t : List Char)
    (h : listContainsSub pat s = true) : listContainsSub pat (s ++ t) = true := by
  induction s with
  | nil =>
    cases pat with
    | nil => simp [listContainsSub_nil_pat]
    | cons x ps => simp [listContainsSub, listStartsWith] at h
  | cons c cs ih =>
    simp only [listContainsSub, Bool.or_eq_true] at h
    simp only [List.cons_append, listContainsSub, Bool.or_eq_true]
    rcases h with h | h
    · exact Or.inl (by
        have := listStartsWith_append_right pat (c :: cs) t h
        simpa using this)
    · exact Or.inr (ih h)

theorem listContainsSub_append_right (pat s t : List Char)
    (h : listContainsSub pat t = true) : listContainsSub pat (s ++ t) = true := by
  induction s with
  | nil => simpa using h
  | cons c cs ih =>
    simp only [List.cons_append, listContainsSub, Bool.or_eq_true]
    exact Or.inr ih

theorem listContainsSub_of_pat_append (a b s : List Char)
    (h : listContainsSub (a ++ b) s = true) : listContainsSub a s = true := by
  induction s with
  | nil =>
    cases a with
    | nil => exact listContainsSub_nil_pat []
    | cons x as => simp [listContainsSub, listStartsWith] at h
  | cons c cs ih =>
    simp only [listContainsSub, Bool.or_eq_true] at h ⊢
    rcases h with h | h
    · exact Or.inl (listStartsWith_of_append a b (c :: cs) h)
    · exact Or.inr (ih h)

theorem strContains_append_left (a b pat : String)
    (h : strContains a pat = true) : strContains (a ++ b) pat = true :=
  listContainsSub_append_left pat.data a.data b.data h

theorem strContains_append_right (a b pat : String)
    (h : strContains b pat = true) : strContains (a ++ b) pat = true :=
  listContainsSub_append_right pat.data a.data b.data h

theorem strStartsWith_mono (s a b : String)
    (h : strStartsWith s (a ++ b) = true) : strStartsWith s a = true :=
  listStartsWith_of_append a.data b.data s.data h

theorem strContains_pat_mono (s a b : String)
    (h : strContains s (a ++ b) = true) : strContains s a = true :=
  listContainsSub_of_pat_append a.data b.data s.data h

/-- The asset guarantor's output always carries the CDN reference. -/
theorem ensure_contains_cdn (x : String) :
    strContains (_ensure_tailwind_cdn x) "cdn.tailwindcss.com" = true := by
  unfold _ensure_tailwind_cdn
  split
  · assumption
  · split
    · apply strContains_append_left
      apply strContains_append_right
      decide
    · apply strContains_append_left
      apply strContains_append_left
      decide

/-- Markup already containing the CDN reference is returned unchanged. -/
theorem ensure_fixed (y : String)
    (h : strContains y "cdn.tailwindcss.com" = true) : _ensure_tailwind_cdn y = y := by
  unfold _ensure_tailwind_cdn
  simp [h]

/-! ## Claim theorems -/

/-- C3: the asset guarantor `_ensure_tailwind_cdn` is idempotent — applying
it twice equals applying it once — and it never removes the CSS-framework
reference once present. -/
theorem c3_asset_guarantor_idempotent (x : String) :
    _ensure_tailwind_cdn (_ensure_tailwind_cdn x) = _ensure_tailwind_cdn x
    ∧ (strContains x "cdn.tailwindcss.com" = true →
        strContains (_ensure_tailwind_cdn x) "cdn.tailwindcss.com" = true) :=
  ⟨ensure_fixed _ (ensure_contains_cdn x), fun _ => ensure_contains_cdn x⟩

/-- Witness for C3 at the concrete input `"cdn.tailwindcss.com"`. -/
theorem c3_asset_guarantor_idempotent_witness :
    strContains (_ensure_tailwind_cdn "cdn.tailwindcss.com") "cdn.tailwindcss.com" = true :=
  (c3_asset_guarantor_idempotent "cdn.tailwindcss.com").2 (by decide)

/-- C4 counterexample: an input that already contains the CDN reference is
returned unchanged even though it has no webfont links and no `<head>`/
`<body>` structure, refuting the unconditional invariant. -/
theorem c4_asset_invariant_counterexample :
    _ensure_tailwind_cdn "cdn.tailwindcss.com" = "cdn.tailwindcss.com"
    ∧ strContains (_ensure_tailwind_cdn "cdn.tailwindcss.com") "fonts.googleapis.com" = false
    ∧ strContains (lowerStr (_ensure_tailwind_cdn "cdn.tailwindcss.com")) "<head>" = false := by
  refine ⟨?_, ?_, ?_⟩ <;> decide

/-- C4 (amended): the output of `_ensure_tailwind_cdn` always contains the
CDN reference; when the input lacked the reference the output also contains
the webfont links; when the input additionally lacked a `<head>` tag the
output is the full skeleton wrapping the input verbatim; and in every case
the original content is preserved — the output is the input with at most one
block inserted and an optional wrapper around it. -/
theorem c4_asset_invariant_amended (x : String) :
    strContains (_ensure_tailwind_cdn x) "cdn.tailwindcss.com" = true
    ∧ (strContains x "cdn.tailwindcss.com" = false →
        strContains (_ensure_tailwind_cdn x) "fonts.googleapis.com" = true)
    ∧ (strContains x "cdn.tailwindcss.com" = false →
        findSubIdx "<head>".data (lowerList x.data) = none →
        _ensure_tailwind_cdn x = skelPre ++ x ++ skelPost)
    ∧ ∃ pre i ins post,
        (_ensure_tailwind_cdn x).data
          = pre ++ x.data.take i ++ ins ++ x.data.drop i ++ post := by
  refine ⟨ensure_contains_cdn x, ?_, ?_, ?_⟩
  · intro h
    unfold _ensure_tailwind_cdn
    simp only [h, Bool.false_eq_true, if_false]
    split
    · apply strContains_append_left
      apply strContains_append_right
      decide
    · apply strContains_append_left
      apply strContains_append_left
      decide
  · intro h hh
    unfold _ensure_tailwind_cdn
    simp [h, hh]
  · unfold _ensure_tailwind_cdn
    split
    · exact ⟨[], x.data.length, [], [], by simp⟩
    · split
      · rename_i pos _
        exact ⟨[], pos + 6, headInjection.data, [], by simp [strApp_data]⟩
      · exact ⟨skelPre.data, x.data.length, [], skelPost.data, by simp [strApp_data]⟩

/-- Witness for C4 (amended) at the headless fragment `"<div>hi</div>"`: the
output is the skeleton wrapping the input. -/
theorem c4_asset_invariant_amended_witness :
    _ensure_tailwind_cdn "<div>hi</div>" = skelPre ++ "<div>hi</div>" ++ skelPost :=
  (c4_asset_invariant_amended "<div>hi</div>").2.2.1 (by decide) (by decide)

/-- C6 counterexample: a model reply whose content is the empty string does
not fail — `_call_ai_generation` returns the asset-guaranteed skeleton,
refuting "fails ... when the model returns empty content". -/
theorem c6_generation_error_counterexample :
    (_call_ai_generation (Except.ok (some "")) "" "").1
      = Except.ok (skelPre ++ "" ++ skelPost) := rfl

/-- C6 (amended): `_call_ai_generation` fails with a generation error exactly
when the upstream call raises or the reply carries no content (`None`); any
returned string — including the empty string — succeeds and is returned with
code fences stripped and assets guaranteed. -/
theorem c6_generation_error_amended :
    (∀ e sp um, (_call_ai_generation (Except.error e) sp um).1
        = Except.error ("AI generation failed: " ++ e))
    ∧ (∀ sp um, (_call_ai_generation (Except.ok none) sp um).1
        = Except.error ("AI generation failed: " ++ attrErrMsg))
    ∧ (∀ s sp um, (_call_ai_generation (Except.ok (some s)) sp um).1
        = Except.ok (_ensure_tailwind_cdn (stripFences s))) :=
  ⟨fun _ _ _ => rfl, fun _ _ => rfl, fun _ _ _ => rfl⟩

/-- C9 counterexample: an input with no code fence at all is not preserved
verbatim — the trailing `.strip()` removes surrounding whitespace, refuting
"content preserved verbatim otherwise". -/
theorem c9_strip_fences_counterexample :
    stripFences " x" = "x" ∧ (" x" : String) ≠ "x" := by
  refine ⟨?_, ?_⟩ <;> decide

/-- C9 (amended): the cleanup strips a leading "```html" fence if present,
then a leading bare fence, then a trailing fence, then surrounding
whitespace; both examples of the claim hold, and any input with no leading
or trailing fence and no surrounding whitespace is returned unchanged. -/
theorem c9_strip_fences_amended :
    stripFences "```html\n<p>x</p>\n```" = "<p>x</p>"
    ∧ stripFences "<p>x</p>" = "<p>x</p>"
    ∧ ∀ s, strStartsWith s "```" = false → strEndsWith s "```" = false →
        strTrim s = s → stripFences s = s := by
  refine ⟨by decide, by decide, ?_⟩
  intro s h1 h2 h3
  have h0 : strStartsWith s "```html" = false := by
    cases hq : strStartsWith s "```html" with
    | false => rfl
    | true =>
      have heq : ("```" : String) ++ "html" = "```html" := by decide
      have := strStartsWith_mono s "```" "html" (by rw [heq]; exact hq)
      rw [h1] at this
      exact absurd this (by decide)
  unfold stripFences
  simp [h0, h1, h2, h3]

/-- Witness for C9 (amended) at the fence-free input `"<div>y</div>"`. -/
theorem c9_strip_fences_amended_witness :
    stripFences "<div>y</div>" = "<div>y</div>" :=
  c9_strip_fences_amended.2.2 "<div>y</div>" (by decide) (by decide) (by decide)

/-- C1 counterexample: with an API key present and a judge reply that
reports no section at all, `validate_website` returns empty found and
missing lists although the GLOBAL mandatory set is nonempty — the AI-judge
strategy does not guarantee the partition. -/
theorem c1_validator_partition_counterexample :
    (validate_website envBad "" "GLOBAL").found_sections = []
    ∧ (validate_website envBad "" "GLOBAL").missing_sections = []
    ∧ "sticky navbar" ∈ mandatorySections "GLOBAL" := by
  refine ⟨rfl, rfl, ?_⟩
  decide

/-- C1 (amended): the keyword fallback strategy classifies every mandatory
section of the market as found or missing, never both and never neither;
the AI-judge strategy instead returns exactly the sections reported by the
judge model, with no partition guarantee. -/
theorem c1_validator_partition_amended :
    (∀ html market s,
      (s ∈ mandatorySections market ↔
        (s ∈ (_fallback_validation html market).found_sections
          ∨ s ∈ (_fallback_validation html market).missing_sections))
      ∧ ¬(s ∈ (_fallback_validation html market).found_sections
          ∧ s ∈ (_fallback_validation html market).missing_sections))
    ∧ (∀ env html market j, truthyS env.apiKey = true →
        env.judge (validationPrompt html market) = Except.ok j →
        validate_website env html market = judgeToResult j) := by
  constructor
  · intro html market s
    simp only [_fallback_validation]
    constructor
    · constructor
      · intro hs
        cases hfb : sectionFound (lowerStr html) s with
        | false => exact Or.inr (List.mem_filter.mpr ⟨hs, by rw [hfb]; rfl⟩)
        | true => exact Or.inl (List.mem_filter.mpr ⟨hs, hfb⟩)
      · rintro (hmem | hmem) <;> exact (List.mem_filter.mp hmem).1
    · rintro ⟨hf, hm⟩
      have h1 := (List.mem_filter.mp hf).2
      have h2 := (List.mem_filter.mp hm).2
      rw [h1] at h2
      exact absurd h2 (by decide)
  · intro env html market j hk hj
    unfold validate_website
    simp [hk, hj]

/-- Witness for C1 (amended): the judge path at a concrete environment. -/
theorem c1_validator_partition_amended_witness :
    validate_website envJudge "" "GLOBAL" = judgeToResult jFix :=
  c1_validator_partition_amended.2 envJudge "" "GLOBAL" jFix (by decide) rfl

/-- C5: `validate_website` is a total function and any failure of the judge
path — missing API key or an exception in the call/parse — yields exactly
the keyword-fallback result. -/
theorem c5_validator_never_fails (env : ValEnv) (html market : String)
    (h : truthyS env.apiKey = false
         ∨ env.judge (validationPrompt html market) = Except.error ()) :
    validate_website env html market = _fallback_validation html market := by
  unfold validate_website
  rcases h with h | h
  · simp [h]
  · cases hk : truthyS env.apiKey with
    | false => simp [hk]
    | true => simp [hk, h]

/-- Witness for C5 with no API key configured. -/
theorem c5_validator_never_fails_witness :
    validate_website envNoKey "" "GLOBAL" = _fallback_validation "" "GLOBAL" :=
  c5_validator_never_fails envNoKey "" "GLOBAL" (Or.inl (by decide))

/-- C10 counterexample: the markup `"open"` lacks nav/header and lacks the
"hours"/"timing" keywords, yet the DOMESTIC fallback classifies
"business hours" as found (keyword "open"), so `missing_sections` does not
contain it. -/
theorem c10_fallback_domestic_counterexample :
    strContains (lowerStr "open") "nav" = false
    ∧ strContains (lowerStr "open") "header" = false
    ∧ strContains (lowerStr "open") "hours" = false
    ∧ strContains (lowerStr "open") "timing" = false
    ∧ "business hours" ∉ (_fallback_validation "open" "IN").missing_sections
    ∧ "business hours" ∈ (_fallback_validation "open" "IN").found_sections
    ∧ (_fallback_validation "open" "IN").valid = false := by
  refine ⟨?_, ?_, ?_, ?_, ?_, ?_, ?_⟩ <;> decide

/-- C10 (amended): for markup whose lowercasing contains none of the navbar
keywords (nav, navbar, header) and none of the business-hours keywords
(hours, timing, open, schedule), the DOMESTIC fallback returns valid=false,
its missing list contains "sticky navbar" and "business hours", and the
missing list consists exactly of the mandatory sections none of whose
fallback keywords occur. -/
theorem c10_fallback_domestic_amended (html : String)
    (hnav : strContains (lowerStr html) "nav" = false)
    (hheader : strContains (lowerStr html) "header" = false)
    (hhours : strContains (lowerStr html) "hours" = false)
    (htiming : strContains (lowerStr html) "timing" = false)
    (hopened : strContains (lowerStr html) "open" = false)
    (hsched : strContains (lowerStr html) "schedule" = false) :
    (_fallback_validation html "IN").valid = false
    ∧ "sticky navbar" ∈ (_fallback_validation html "IN").missing_sections
    ∧ "business hours" ∈ (_fallback_validation html "IN").missing_sections
    ∧ ∀ s, s ∈ (_fallback_validation html "IN").missing_sections ↔
        (s ∈ MANDATORY_SECTIONS_IN ∧ sectionFound (lowerStr html) s = false) := by
  have hnavbar : strContains (lowerStr html) "navbar" = false := by
    cases hq : strContains (lowerStr html) "navbar" with
    | false => rfl
    | true =>
      have heq : ("nav" : String) ++ "bar" = "navbar" := by decide
      have := strContains_pat_mono (lowerStr html) "nav" "bar" (by rw [heq]; exact hq)
      rw [hnav] at this
      exact absurd this (by decide)
  have hmapnav : keyword_map "sticky navbar" = ["nav", "navbar", "header"] := by decide
  have hmaphours : keyword_map "business hours" = ["hours", "timing", "open", "schedule"] := by
    decide
  have hnb : sectionFound (lowerStr html) "sticky navbar" = false := by
    simp [sectionFound, hmapnav, hnav, hnavbar, hheader]
  have hbh : sectionFound (lowerStr html) "business hours" = false := by
    simp [sectionFound, hmaphours, hhours, htiming, hopened, hsched]
  have hmand : mandatorySections "IN" = MANDATORY_SECTIONS_IN := rfl
  have hmem : ∀ s, s ∈ (_fallback_validation html "IN").missing_sections ↔
      (s ∈ MANDATORY_SECTIONS_IN ∧ sectionFound (lowerStr html) s = false) := by
    intro s
    simp only [_fallback_validation, hmand]
    rw [List.mem_filter]
    constructor
    · rintro ⟨hs, hp⟩
      refine ⟨hs, ?_⟩
      cases hb : sectionFound (lowerStr html) s with
      | false => rfl
      | true => rw [hb] at hp; exact absurd hp (by decide)
    · rintro ⟨hs, hp⟩
      exact ⟨hs, by rw [hp]; rfl⟩
  have hnbmem : "sticky navbar" ∈ (_fallback_validation html "IN").missing_sections :=
    (hmem "sticky navbar").mpr ⟨by decide, hnb⟩
  refine ⟨?_, hnbmem, (hmem "business hours").mpr ⟨by decide, hbh⟩, hmem⟩
  have hne : (_fallback_validation html "IN").missing_sections ≠ [] :=
    List.ne_nil_of_mem hnbmem
  simp only [_fallback_validation] at hne ⊢
  cases hml : List.filter (fun s => !sectionFound (lowerStr html) s)
      (mandatorySections "IN") with
  | nil => exact absurd hml hne
  | cons a l => simp [hml]

/-- Witness for C10 (amended) at the empty markup. -/
theorem c10_fallback_domestic_amended_witness :
    (_fallback_validation "" "IN").valid = false
    ∧ "sticky navbar" ∈ (_fallback_validation "" "IN").missing_sections
    ∧ "business hours" ∈ (_fallback_validation "" "IN").missing_sections := by
  have h := c10_fallback_domestic_amended "" (by decide) (by decide) (by decide)
    (by decide) (by decide) (by decide)
  exact ⟨h.1, h.2.1, h.2.2.1⟩

/-- C2: regardless of the model replies and validation outcomes, one run of
`generate_website_code` makes at most two generation calls, at most two
validation calls, builds at most one repair prompt, and applies the asset
guarantee right after every generation call that returns markup. -/
theorem c2_bounded_repair (env : GenEnv) (req : GenRequest) :
    countEvent Event.genCall (generate_website_code env req).2 ≤ 2
    ∧ countEvent Event.valCall (generate_website_code env req).2 ≤ 2
    ∧ countEvent Event.repairBuild (generate_website_code env req).2 ≤ 1
    ∧ assetAfterGen (generate_website_code env req).2 = true := by
  obtain ⟨pr, r1, r2, v1, v2⟩ := env
  rcases r1 with e1 | oc1
  · simp only [generate_website_code, _call_ai_generation]
    try dsimp only
    decide
  · rcases oc1 with _ | s1
    · simp only [generate_website_code, _call_ai_generation]
      try dsimp only
      decide
    · rcases r2 with e2 | oc2
      · simp only [generate_website_code, _call_ai_generation]
        split
        · try dsimp only
          decide
        · try dsimp only
          decide
      · rcases oc2 with _ | s2
        · simp only [generate_website_code, _call_ai_generation]
          split
          · try dsimp only
            decide
          · try dsimp only
            decide
        · simp only [generate_website_code, _call_ai_generation]
          split
          · try dsimp only
            decide
          · try dsimp only
            decide

/-- C7: when the first generation returns markup and the first validation
reports valid or an empty missing list, the orchestrator performs exactly
one generation call and returns that markup with that validation result
immediately — no repair cycle. -/
theorem c7_no_regeneration_when_valid (env : GenEnv) (req : GenRequest) (raw : String)
    (h1 : env.resp1 = Except.ok (some raw))
    (h2 : (validate_website env.val1 (_ensure_tailwind_cdn (stripFences raw)) req.market).valid
            = true
          ∨ (validate_website env.val1 (_ensure_tailwind_cdn (stripFences raw))
              req.market).missing_sections = []) :
    generate_website_code env req
      = (Except.ok (_ensure_tailwind_cdn (stripFences raw),
          validate_website env.val1 (_ensure_tailwind_cdn (stripFences raw)) req.market),
         [Event.genCall, Event.assetApp, Event.valCall]) := by
  unfold generate_website_code
  rw [h1]
  simp only [_call_ai_generation]
  have hcond :
      (!(validate_website env.val1 (_ensure_tailwind_cdn (stripFences raw)) req.market).valid
        && !(validate_website env.val1 (_ensure_tailwind_cdn (stripFences raw))
              req.market).missing_sections.isEmpty) = false := by
    rcases h2 with h | h
    · rw [h]; rfl
    · rw [h]; simp
  simp [hcond]

/-- Witness for C7: a concrete run whose first fallback validation passes. -/
theorem c7_no_regeneration_when_valid_witness :
    generate_website_code envC7 reqC7
      = (Except.ok (_ensure_tailwind_cdn (stripFences rawGood),
          validate_website envC7.val1 (_ensure_tailwind_cdn (stripFences rawGood))
            reqC7.market),
         [Event.genCall, Event.assetApp, Event.valCall]) :=
  c7_no_regeneration_when_valid envC7 reqC7 rawGood rfl (Or.inl (by decide))

/-- C8: the composed user message for the GLOBAL market does not depend on
the DOMESTIC-only fields (WhatsApp number and message, user images, map
link), and the composed user message for the IN market does not depend on
the GLOBAL-only fields (brand voice, booking link, email): two requests
differing only in the other market's fields compose identically. -/
theorem c8_market_field_isolation :
    (∀ p tc (i1 i2 : Option (List String)) (w1 m1 g1 w2 m2 g2 bv bl em : Option String),
      composeUserMessage p tc "GLOBAL" i1 w1 m1 g1 bv bl em
        = composeUserMessage p tc "GLOBAL" i2 w2 m2 g2 bv bl em)
    ∧ (∀ p tc (i : Option (List String)) (w m g bv1 bl1 em1 bv2 bl2 em2 : Option String),
      composeUserMessage p tc "IN" i w m g bv1 bl1 em1
        = composeUserMessage p tc "IN" i w m g bv2 bl2 em2) :=
  ⟨fun _ _ _ _ _ _ _ _ _ _ _ _ _ => rfl, fun _ _ _ _ _ _ _ _ _ _ _ _ => rfl⟩
